import Mathlib

/-!
Shallow embedding of the DevBrief-Generator backend: the zod brief schema and
batch dataset validator of src/validateDataset.ts, the generation pipeline of
src/chat.ts (parseBriefs, parseSingleBrief, getOpenAIClient,
getResponseFromOpenAI, insertBriefInDB), and the streaming entry point.
-/

/-- Parsed JSON values, the result of JSON.parse. Objects are the ordered
key/value lists the JavaScript runtime delivers. -/
inductive Json where
  | null : Json
  | bool : Bool → Json
  | num  : Int → Json
  | str  : String → Json
  | arr  : List Json → Json
  | obj  : List (String × Json) → Json

/-- One zod validation issue: the path names the offending field (array
indices rendered as decimal strings, as zod does), the code is the zod
issue code. -/
structure ZodIssue where
  path : List String
  code : String
deriving Repr, DecidableEq

/-- Property access `fields[key]` on a parsed JSON object. -/
def lookupField (fields : List (String × Json)) (key : String) : Option Json :=
  (fields.find? (fun p => p.fst = key)).map Prod.snd

/-- zod `z.string()` applied to the field `key` of an object: issues produced
(empty when the check passes). A missing key or a non-string value yields an
invalid_type issue at path [key]. -/
def checkString (fields : List (String × Json)) (key : String) : List ZodIssue :=
  match lookupField fields key with
  | some (Json.str _) => []
  | some _ => [⟨[key], "invalid_type"⟩]
  | none => [⟨[key], "invalid_type"⟩]

/-- zod `z.enum(options)` applied to the field `key`: a string outside the
closed set yields invalid_enum_value, a non-string invalid_type, a missing
key invalid_type (Required). -/
def checkEnum (fields : List (String × Json)) (key : String)
    (options : List String) : List ZodIssue :=
  match lookupField fields key with
  | some (Json.str s) =>
      if s ∈ options then [] else [⟨[key], "invalid_enum_value"⟩]
  | some _ => [⟨[key], "invalid_type"⟩]
  | none => [⟨[key], "invalid_type"⟩]

def Json.isStr : Json → Bool
  | Json.str _ => true
  | _ => false

/-- zod `z.array(z.string()).min(1)` applied to the field `key`: zod checks
the min bound first (too_small at path [key]), then parses every element
(invalid_type at path [key, i] for a non-string element i). -/
def checkStringArrayMin1 (fields : List (String × Json)) (key : String) :
    List ZodIssue :=
  match lookupField fields key with
  | some (Json.arr xs) =>
      (if xs.length < 1 then [⟨[key], "too_small"⟩] else []) ++
      (xs.enum.filterMap (fun p =>
        if p.snd.isStr then none else some ⟨[key, toString p.fst], "invalid_type"⟩))
  | some _ => [⟨[key], "invalid_type"⟩]
  | none => [⟨[key], "invalid_type"⟩]

def levelOptions : List String := ["junior", "intermediate", "senior"]

def techFocusOptions : List String := ["frontend", "backend", "fullstack"]

def companySizeOptions : List String := ["Startup", "SME", "Large Enterprise"]

def complexityOptions : List String := ["low", "medium", "high"]

/-- All issues the briefSchema of src/validateDataset.ts produces on an
object's field list, in the schema's declaration order. -/
def briefIssues (fields : List (String × Json)) : List ZodIssue :=
  checkEnum fields "level" levelOptions ++
  checkString fields "domain" ++
  checkEnum fields "tech_focus" techFocusOptions ++
  checkStringArrayMin1 fields "stack" ++
  checkString fields "duration" ++
  checkString fields "brief" ++
  checkString fields "business_problem" ++
  checkString fields "target_users" ++
  checkStringArrayMin1 fields "goals" ++
  checkStringArrayMin1 fields "deliverables" ++
  checkString fields "assessment_criteria" ++
  checkEnum fields "company_size" companySizeOptions ++
  checkEnum fields "complexity" complexityOptions

/-- The schema's keys in declaration order. -/
def briefKeys : List String :=
  ["level", "domain", "tech_focus", "stack", "duration", "brief",
   "business_problem", "target_users", "goals", "deliverables",
   "assessment_criteria", "company_size", "complexity"]

/-- zod object parsing in the default "strip" mode keeps only the shape's
keys, in shape declaration order. -/
def stripToSchema (fields : List (String × Json)) : List (String × Json) :=
  briefKeys.filterMap (fun k => (lookupField fields k).map (fun v => (k, v)))

/-- briefSchema.safeParse of src/validateDataset.ts: a non-object is an
invalid_type at the root; an object is checked field by field, all issues
collected; on success the data is the input with unknown keys stripped. -/
def briefSafeParse (j : Json) : Except (List ZodIssue) Json :=
  match j with
  | Json.obj fields =>
      match briefIssues fields with
      | [] => Except.ok (Json.obj (stripToSchema fields))
      | issues => Except.error issues
  | _ => Except.error [⟨[], "invalid_type"⟩]

/-- What the batch validator of src/validateDataset.ts accumulates over the
loop: the two counters and, for each invalid brief, the error report it
prints (1-based brief number together with the issues). -/
structure ValidationReport where
  validCount : Nat
  errorCount : Nat
  errorLogs : List (Nat × List ZodIssue)
deriving Repr, DecidableEq

/-- The `briefs.forEach((brief, index) => ...)` loop of
src/validateDataset.ts, with the running JavaScript index made explicit. -/
def validateAux : Nat → List Json → ValidationReport → ValidationReport
  | _, [], rep => rep
  | index, brief :: rest, rep =>
      match briefSafeParse brief with
      | Except.ok _ =>
          validateAux (index + 1) rest
            { rep with validCount := rep.validCount + 1 }
      | Except.error e =>
          validateAux (index + 1) rest
            { rep with errorCount := rep.errorCount + 1,
                       errorLogs := rep.errorLogs ++ [(index + 1, e)] }

/-- Validation of a parsed dataset array: counters start at 0 and the loop
runs over every element. -/
def validateBriefs (briefs : List Json) : ValidationReport :=
  validateAux 0 briefs ⟨0, 0, []⟩

/-- Top level of src/validateDataset.ts after JSON.parse: a non-array
dataset throws before any brief is examined. -/
def validateDataset (j : Json) : Except String ValidationReport :=
  match j with
  | Json.arr briefs => Except.ok (validateBriefs briefs)
  | _ => Except.error "Dataset must be an array of briefs"

/-- A user story as src/chat.ts reads it off a validated brief
(story.title, story.description, story.acceptance_criteria, story.priority,
story.complexity). -/
structure UserStory where
  title : String
  description : String
  acceptance_criteria : String
  priority : String
  complexity : String
deriving Repr, DecidableEq

/-- The validated ProjectBrief of src/chat.ts: the thirteen schema fields it
copies into the briefs row plus the user_stories list it maps over. -/
structure ProjectBrief where
  level : String
  domain : String
  tech_focus : String
  stack : List String
  duration : String
  brief : String
  business_problem : String
  target_users : String
  goals : List String
  deliverables : List String
  assessment_criteria : String
  company_size : String
  complexity : String
  user_stories : List UserStory
deriving Repr, DecidableEq

def userStoryKeys : List String :=
  ["title", "description", "acceptance_criteria", "priority", "complexity"]

/-- Modelled from the spec: the user-story record schema of
src/schema/brief.js, a file the repository does not contain. The spec's data
model gives a UserStory the attributes title, description, acceptance
criteria, priority and complexity; each is checked as a required field here,
with issue paths rooted under user_stories as zod produces them. -/
def checkUserStoryValue (index : Nat) (j : Json) : List ZodIssue :=
  match j with
  | Json.obj fields =>
      userStoryKeys.filterMap (fun k =>
        match lookupField fields k with
        | some (Json.str _) => none
        | _ => some ⟨["user_stories", toString index, k], "invalid_type"⟩)
  | _ => [⟨["user_stories", toString index], "invalid_type"⟩]

/-- Modelled from the spec: the user_stories field of the brief schema of
src/schema/brief.js, a file the repository does not contain. The spec's data
model says a ProjectBrief carries a nested list of UserStory records, so the
field is a required array of user-story objects. -/
def checkUserStories (fields : List (String × Json)) : List ZodIssue :=
  match lookupField fields "user_stories" with
  | some (Json.arr xs) =>
      (xs.enum.map (fun p => checkUserStoryValue p.fst p.snd)).flatten
  | some _ => [⟨["user_stories"], "invalid_type"⟩]
  | none => [⟨["user_stories"], "invalid_type"⟩]

/-- Modelled from the spec: all issues of the briefSchema that src/chat.ts
imports from src/schema/brief.js, a file the repository does not contain.
Per the spec's data model it has the same thirteen attributes as the
dataset schema plus the nested user_stories list. -/
def chatBriefIssues (fields : List (String × Json)) : List ZodIssue :=
  briefIssues fields ++ checkUserStories fields

def Json.asString : Json → String
  | Json.str s => s
  | _ => ""

def Json.asStringList : Json → List String
  | Json.arr xs => xs.map Json.asString
  | _ => []

/-- Reading one user story out of validated JSON. -/
def decodeUserStory (j : Json) : UserStory :=
  match j with
  | Json.obj fields =>
      { title := (lookupField fields "title").getD Json.null |>.asString,
        description := (lookupField fields "description").getD Json.null |>.asString,
        acceptance_criteria :=
          (lookupField fields "acceptance_criteria").getD Json.null |>.asString,
        priority := (lookupField fields "priority").getD Json.null |>.asString,
        complexity := (lookupField fields "complexity").getD Json.null |>.asString }
  | _ => ⟨"", "", "", "", ""⟩

/-- Reading the typed ProjectBrief out of JSON that passed the chat schema
(the result.data of a successful safeParse). -/
def decodeBrief (fields : List (String × Json)) : ProjectBrief :=
  { level := (lookupField fields "level").getD Json.null |>.asString,
    domain := (lookupField fields "domain").getD Json.null |>.asString,
    tech_focus := (lookupField fields "tech_focus").getD Json.null |>.asString,
    stack := (lookupField fields "stack").getD Json.null |>.asStringList,
    duration := (lookupField fields "duration").getD Json.null |>.asString,
    brief := (lookupField fields "brief").getD Json.null |>.asString,
    business_problem :=
      (lookupField fields "business_problem").getD Json.null |>.asString,
    target_users := (lookupField fields "target_users").getD Json.null |>.asString,
    goals := (lookupField fields "goals").getD Json.null |>.asStringList,
    deliverables :=
      (lookupField fields "deliverables").getD Json.null |>.asStringList,
    assessment_criteria :=
      (lookupField fields "assessment_criteria").getD Json.null |>.asString,
    company_size := (lookupField fields "company_size").getD Json.null |>.asString,
    complexity := (lookupField fields "complexity").getD Json.null |>.asString,
    user_stories :=
      match lookupField fields "user_stories" with
      | some (Json.arr xs) => xs.map decodeUserStory
      | _ => [] }

/-- parseSingleBrief of src/chat.ts: briefSchema.safeParse, throwing
`Invalid JSON format` when it fails, returning result.data when it
succeeds. -/
def parseSingleBrief (j : Json) : Except String ProjectBrief :=
  match j with
  | Json.obj fields =>
      match chatBriefIssues fields with
      | [] => Except.ok (decodeBrief fields)
      | _ => Except.error "Invalid JSON format"
  | _ => Except.error "Invalid JSON format"

/-- `json.map(parseSingleBrief)` under JavaScript exception semantics: the
elements are processed left to right and the first throw aborts the map,
leaving every later element unprocessed. -/
def mapParseSingle : List Json → Except String (List ProjectBrief)
  | [] => Except.ok []
  | j :: rest =>
      match parseSingleBrief j with
      | Except.error e => Except.error e
      | Except.ok b =>
          match mapParseSingle rest with
          | Except.error e => Except.error e
          | Except.ok bs => Except.ok (b :: bs)

/-- parseBriefs of src/chat.ts: an array is mapped element by element with
parseSingleBrief, whose exception aborts the map at the first failure; any
other value is parsed as a single brief and wrapped in a one-element
array. -/
def parseBriefs (j : Json) : Except String (List ProjectBrief) :=
  match j with
  | Json.arr xs => mapParseSingle xs
  | _ => (parseSingleBrief j).map (fun b => [b])

/-- A row of the briefs table: the thirteen copied brief fields, the
embedding vector, and the identifier the datastore generates on insert.
Embedding components are opaque here, so they are carried as integers. -/
structure BriefRow where
  id : Nat
  level : String
  domain : String
  tech_focus : String
  stack : List String
  duration : String
  brief : String
  business_problem : String
  target_users : String
  goals : List String
  deliverables : List String
  assessment_criteria : String
  company_size : String
  complexity : String
  embedding : List Int
deriving Repr, DecidableEq

/-- A row of the brief_user_stories table, exactly the object literal built
in insertBriefInDB of src/chat.ts. -/
structure StoryRow where
  brief_id : Nat
  story_order : Nat
  title : String
  description : String
  acceptance_criteria : String
  priority : String
  complexity : String
deriving Repr, DecidableEq

/-- The two related tables of the datastore, with the counter from which
inserted rows get their generated identifiers. -/
structure DBState where
  nextId : Nat
  briefs : List BriefRow
  brief_user_stories : List StoryRow
deriving Repr, DecidableEq

/-- The value insertBriefInDB returns on success: the inserted briefs row
(the data that .select().single() hands back) and the number of user-story
rows inserted. -/
structure InsertSummary where
  brief : BriefRow
  userStoriesInserted : Nat
deriving Repr, DecidableEq

/-- The briefRow object literal of insertBriefInDB, with the identifier the
datastore generates. -/
def briefRowOf (id : Nat) (b : ProjectBrief) (embedding : List Int) : BriefRow :=
  { id := id,
    level := b.level,
    domain := b.domain,
    tech_focus := b.tech_focus,
    stack := b.stack,
    duration := b.duration,
    brief := b.brief,
    business_problem := b.business_problem,
    target_users := b.target_users,
    goals := b.goals,
    deliverables := b.deliverables,
    assessment_criteria := b.assessment_criteria,
    company_size := b.company_size,
    complexity := b.complexity,
    embedding := embedding }

/-- The userStoryRows of insertBriefInDB:
`brief.user_stories.map((story, index) => ...)`, one row per user story in
order, story_order the 1-based position and brief_id the generated
identifier of the briefs row. -/
def userStoryRowsOf (briefId : Nat) (stories : List UserStory) : List StoryRow :=
  stories.enum.map (fun p =>
    { brief_id := briefId,
      story_order := p.fst + 1,
      title := p.snd.title,
      description := p.snd.description,
      acceptance_criteria := p.snd.acceptance_criteria,
      priority := p.snd.priority,
      complexity := p.snd.complexity })

/-- insertBriefInDB of src/chat.ts. The supabase client is external, so each
of its two inserts is modelled by an injected outcome: `some msg` makes that
insert fail with error.message = msg, `none` makes it succeed. The function
returns the datastore state after the call together with the thrown error or
the returned summary. The briefs insert runs first; an error there throws
before the user-story rows are even built. A later error on the
brief_user_stories insert throws with the briefs row already committed: the
code has no transaction or rollback. -/
def insertBriefInDB (briefInsertError storiesInsertError : Option String)
    (db : DBState) (brief : ProjectBrief) (embedding : List Int) :
    DBState × Except String InsertSummary :=
  match briefInsertError with
  | some msg =>
      (db, Except.error ("Error inserting brief into database: " ++ msg))
  | none =>
      let row := briefRowOf db.nextId brief embedding
      let db1 : DBState :=
        { nextId := db.nextId + 1,
          briefs := db.briefs ++ [row],
          brief_user_stories := db.brief_user_stories }
      let userStoryRows : List StoryRow := userStoryRowsOf row.id brief.user_stories
      match storiesInsertError with
      | some msg =>
          (db1,
           Except.error ("Error inserting brief user stories into database: " ++ msg))
      | none =>
          ({ db1 with
              brief_user_stories := db1.brief_user_stories ++ userStoryRows },
           Except.ok { brief := row, userStoriesInserted := userStoryRows.length })

/-- The constructed OpenAI client, holding the key it was created with. -/
structure OpenAIClient where
  apiKey : String
deriving Repr, DecidableEq

/-- getOpenAIClient of src/chat.ts. process.env.OPENAI_API_KEY is an
optional string; the JavaScript truthiness test also rejects the empty
string. -/
def getOpenAIClient (envOpenAIApiKey : Option String) :
    Except String OpenAIClient :=
  match envOpenAIApiKey with
  | none =>
      Except.error "Missing OPENAI_API_KEY. Set it in your environment or .env file."
  | some apiKey =>
      if apiKey = "" then
        Except.error "Missing OPENAI_API_KEY. Set it in your environment or .env file."
      else
        Except.ok { apiKey := apiKey }

/-- The completed response of the non-streaming OpenAI call:
response.output_text, absent when the API delivered none. -/
structure OpenAIResponse where
  output_text : Option String
deriving Repr, DecidableEq

/-- getResponseFromOpenAI of src/chat.ts after the network call returned
`response`: a missing or empty output_text throws `No content received`,
otherwise the raw text goes through JSON.parse (passed in as `parseJson`,
whose own failures propagate). -/
def getResponseFromOpenAI (parseJson : String → Except String Json)
    (response : OpenAIResponse) : Except String Json :=
  match response.output_text with
  | none => Except.error "No content received from OpenAI response."
  | some rawJson =>
      if rawJson = "" then
        Except.error "No content received from OpenAI response."
      else
        parseJson rawJson

/-- The object literal the streaming entry point passes to buildUserPrompt:
level, domain, tech focus, stack, duration and brief count. -/
structure GenerationParams where
  level : String
  domain : String
  tech_focus : String
  stack : List String
  duration : String
  count : Nat
deriving Repr, DecidableEq

/-- buildSystemPrompt of the streaming entry point: a fixed template. -/
def buildSystemPromptStream : String :=
  "You are “AegisBrief”, a senior Technical Product Owner and Pedagogical Architect specialized in generating realistic technical briefs for developers. \nYour role is to create JSON-structured briefs that describe real-world software projects faced by companies in various business domains.\n\nEach brief must:\n- Represent a real and meaningful business use case,\n- Be tailored to the developer\x27s level (\x27junior\x27, \x27intermediate\x27, or \x27senior\x27),\n- Respect the given stack and tech focus (frontend, backend, or fullstack),\n- Have achievable and measurable goals within the given duration,\n- Follow the output schema precisely (valid JSON only).\n\nYou combine pedagogical expertise with realistic business insight.\nYour briefs are concise, technically sound, and contextually relevant to the target industry.\n\nThe JSON schema is:\n\n\x7b\n  \"level\": \"junior\",\n  \"domain\": \"FinTech\",\n  \"tech_focus\": \"frontend\",\n  \"stack\": [\"React\", \"TypeScript\", \"TailwindCSS\"],\n  \"duration\": \"2 weeks\",\n  \"brief\": \"Build a responsive dashboard to visualize user transactions and spending patterns.\",\n  \"business_problem\": \"FinTech companies need intuitive dashboards to help users understand their finances and make informed decisions.\",\n  \"target_users\": \"End users of a personal finance mobile app\",\n  \"goals\": [\n    \"Implement a transaction list with category filters\",\n    \"Add monthly spending summaries and charts\",\n    \"Optimize layout for mobile and desktop\"\n  ],\n  \"deliverables\": [\n    \"Fully functional responsive web app\",\n    \"Mock API or Supabase integration\",\n    \"Documentation on architecture and design choices\"\n  ],\n  \"assessment_criteria\": \"Code clarity, UX design quality, and data visualization performance\",\n  \"company_size\": \"Startup\",\n  \"complexity\": \"medium\"\n\x7d\n\n⚙️ **Generation Rules:**\n- Output must be valid JSON, no explanations or comments.\n- Always use English.\n- Adapt the realism and scope of the brief to the level and duration.\n- Vary the business context and problem between generations.\n- If multiple briefs are requested, output an array of JSON objects.\n"

/-- JSON.stringify on an array of plain strings (none of the strings the
program passes contain characters JSON.stringify would escape). -/
def jsonStringifyStringArray (xs : List String) : String :=
  "[" ++ String.intercalate "," (xs.map (fun s => "\"" ++ s ++ "\"")) ++ "]"

/-- buildUserPrompt of the streaming entry point: the template literal
interpolating the generation parameters. -/
def buildUserPromptStream (p : GenerationParams) : String :=
  "Generate " ++ toString p.count ++ " project briefs for :\n\x7b\n  \"level\": \"" ++
  p.level ++ "\",\n  \"domain\": \"" ++ p.domain ++
  "\",\n  \"tech_focus\": \"" ++ p.tech_focus ++ "\",\n  \"stack\": " ++
  jsonStringifyStringArray p.stack ++ ",\n  \"duration\": \"" ++ p.duration ++
  "\"\n\x7d\n\nAuthoring guidelines:\n1. Make the business_problem two vivid sentences that expose market tension and stakes.\n2. Ensure goals are action-oriented, start with strong verbs, and stay within 12 words.\n3. Deliverables must be tangible outputs teams can hand over at the end of the engagement.\n4. Assessment criteria should cover success signals for UX, engineering quality, and business alignment.\n5. Do not copy or lightly edit the example; invent a new scenario within FinTech.\n\nReturn ONLY the JSON object conforming to the schema."

/-- The fixed argument object of the buildUserPrompt call inside the
streaming entry point's main. -/
def streamingCallParams : GenerationParams :=
  { level := "junior",
    domain := "FinTech",
    tech_focus := "frontend",
    stack := ["React", "TypeScript", "TailwindCSS"],
    duration := "2 weeks",
    count := 3 }

/-- One delta of a streamed chunk: its optional content fragment. -/
structure ChunkDelta where
  content : Option String
deriving Repr, DecidableEq

/-- One choice of a streamed chunk. -/
structure ChunkChoice where
  delta : ChunkDelta
deriving Repr, DecidableEq

/-- One chunk of the streamed completion. -/
structure StreamChunk where
  choices : List ChunkChoice
deriving Repr, DecidableEq

/-- The optional-chaining access chunk.choices?.[0]?.delta?.content. -/
def chunkContent (c : StreamChunk) : Option String :=
  c.choices.head?.bind (fun choice => choice.delta.content)

/-- The truthy content fragments of a stream, in arrival order: exactly the
strings the streaming loop writes to stdout (the truthiness test skips a
missing content and the empty string). -/
def truthyContents (stream : List StreamChunk) : List String :=
  stream.filterMap (fun c =>
    match chunkContent c with
    | some s => if s = "" then none else some s
    | none => none)

/-- The observable actions a run of an entry point can perform. The
datastore and file constructors are part of the vocabulary so that their
absence from a run is a statement. -/
inductive Effect where
  | llmStreamRequest (model : String) (systemPrompt : String) (userPrompt : String)
  | consoleLog (s : String)
  | consoleError (s : String)
  | stdoutWrite (s : String)
  | exitProcess (code : Nat)
  | datastoreInsert (table : String)
  | fileWrite (path : String)
deriving Repr, DecidableEq

/-- Whether an effect touches the datastore or the filesystem. -/
def Effect.isStorage : Effect → Bool
  | Effect.datastoreInsert _ => true
  | Effect.fileWrite _ => true
  | _ => false

/-- main of the streaming entry point, as the list of effects a run
performs. It receives the process argv and the API-key environment
variable, and the chunk sequence the streamed call delivers. The body never
reads argv: the buildUserPrompt call site hardcodes its parameter object.
No validation runs (the imported schema is unused there) and nothing
touches the datastore or a file. -/
def streamingMain (argv : List String) (envOpenAIApiKey : Option String)
    (stream : List StreamChunk) : List Effect :=
  match argv, envOpenAIApiKey with
  | _, none =>
      [Effect.consoleError "Missing OPENAI_API_KEY. Set it in your environment or .env file.",
       Effect.exitProcess 1]
  | _, some key =>
      if key = "" then
        [Effect.consoleError "Missing OPENAI_API_KEY. Set it in your environment or .env file.",
         Effect.exitProcess 1]
      else
        Effect.llmStreamRequest "gpt-4o-mini" buildSystemPromptStream
          (buildUserPromptStream streamingCallParams) ::
        Effect.consoleLog "--- streaming start ---\n" ::
        ((truthyContents stream).map Effect.stdoutWrite ++
         (if (truthyContents stream).isEmpty then
            [Effect.consoleError "\n(No streamed content received)"]
          else []) ++
         [Effect.consoleLog "\n\n--- streaming end ---"])

/-- Whether one dataset element lands in the error branch of the batch
validation loop. -/
def parseFails (j : Json) : Bool :=
  match briefSafeParse j with
  | Except.ok _ => false
  | Except.error _ => true

/-- The error report the batch loop prints for one enumerated element:
nothing for a valid brief, the 1-based brief number with the issues for an
invalid one. -/
def batchErrorLog (p : Nat × Json) : Option (Nat × List ZodIssue) :=
  match briefSafeParse p.snd with
  | Except.ok _ => none
  | Except.error e => some (p.fst + 1, e)

/-- The enum fields of the brief schema with their closed value sets. -/
def briefEnums : List (String × List String) :=
  [("level", levelOptions), ("tech_focus", techFocusOptions),
   ("company_size", companySizeOptions), ("complexity", complexityOptions)]

/-- The fields of the brief schema that are non-empty string arrays. -/
def briefArrayKeys : List String := ["stack", "goals", "deliverables"]

/-- A concrete well-formed brief object (the example of the system prompt),
with its fields in schema declaration order. -/
def sampleBriefFields : List (String × Json) :=
  [("level", Json.str "junior"),
   ("domain", Json.str "FinTech"),
   ("tech_focus", Json.str "frontend"),
   ("stack", Json.arr [Json.str "React", Json.str "TypeScript",
                       Json.str "TailwindCSS"]),
   ("duration", Json.str "2 weeks"),
   ("brief", Json.str "Build a responsive dashboard to visualize user transactions and spending patterns."),
   ("business_problem", Json.str "FinTech companies need intuitive dashboards to help users understand their finances and make informed decisions."),
   ("target_users", Json.str "End users of a personal finance mobile app"),
   ("goals", Json.arr [Json.str "Implement a transaction list with category filters"]),
   ("deliverables", Json.arr [Json.str "Fully functional responsive web app"]),
   ("assessment_criteria", Json.str "Code clarity, UX design quality, and data visualization performance"),
   ("company_size", Json.str "Startup"),
   ("complexity", Json.str "medium")]

def sampleBriefJson : Json := Json.obj sampleBriefFields

/-- The same well-formed brief with one extra key the schema does not
declare. -/
def extraFieldBriefJson : Json :=
  Json.obj (sampleBriefFields ++ [("notes", Json.str "internal reviewer note")])

/-- A concrete user story object. -/
def sampleStoryFields : List (String × Json) :=
  [("title", Json.str "Transaction list"),
   ("description", Json.str "Show the latest transactions with filters."),
   ("acceptance_criteria", Json.str "List renders and filters by category."),
   ("priority", Json.str "high"),
   ("complexity", Json.str "low")]

/-- A concrete brief that also satisfies the chat schema: the well-formed
brief plus a one-element user_stories array. -/
def sampleChatBriefJson : Json :=
  Json.obj (sampleBriefFields ++
    [("user_stories", Json.arr [Json.obj sampleStoryFields])])

theorem validateAux_counts (briefs : List Json) (index : Nat)
    (rep : ValidationReport) :
    (validateAux index briefs rep).validCount
      = rep.validCount + (briefs.filter (fun b => !parseFails b)).length ∧
    (validateAux index briefs rep).errorCount
      = rep.errorCount + (briefs.filter parseFails).length ∧
    (validateAux index briefs rep).errorLogs.length
      = rep.errorLogs.length + (briefs.filter parseFails).length := by
  induction briefs generalizing index rep with
  | nil => simp [validateAux]
  | cons b rest ih =>
      cases hb : briefSafeParse b with
      | ok v =>
          have hf : parseFails b = false := by simp [parseFails, hb]
          obtain ⟨ih1, ih2, ih3⟩ :=
            ih (index + 1) { rep with validCount := rep.validCount + 1 }
          refine ⟨?_, ?_, ?_⟩ <;>
            (simp [validateAux, hb, hf, List.filter_cons, ih1, ih2, ih3]; try omega)
      | error e =>
          have hf : parseFails b = true := by simp [parseFails, hb]
          obtain ⟨ih1, ih2, ih3⟩ :=
            ih (index + 1)
              { rep with errorCount := rep.errorCount + 1,
                         errorLogs := rep.errorLogs ++ [(index + 1, e)] }
          refine ⟨?_, ?_, ?_⟩ <;>
            (simp [validateAux, hb, hf, List.filter_cons, ih1, ih2, ih3]; try omega)

theorem length_filter_parseFails (l : List Json) :
    (l.filter (fun b => !parseFails b)).length + (l.filter parseFails).length
      = l.length := by
  induction l with
  | nil => simp
  | cons b rest ih =>
      cases hb : parseFails b <;> (simp [List.filter_cons, hb]; omega)

/-- C1: in batch-validation mode, a JSON array of N briefs of which exactly
K fail the schema yields validCount = N − K, errorCount = K, and exactly K
per-brief error reports after the loop. -/
theorem batch_validation_counts (briefs : List Json) (N K : Nat)
    (hN : briefs.length = N)
    (hK : (briefs.filter parseFails).length = K) :
    (validateBriefs briefs).validCount = N - K ∧
    (validateBriefs briefs).errorCount = K ∧
    (validateBriefs briefs).errorLogs.length = K := by
  obtain ⟨h1, h2, h3⟩ := validateAux_counts briefs 0 ⟨0, 0, []⟩
  have h4 := length_filter_parseFails briefs
  unfold validateBriefs
  refine ⟨?_, ?_, ?_⟩ <;> simp only [h1, h2, h3] <;> simp <;> omega

theorem batch_validation_counts_witness :
    [sampleBriefJson, Json.null, sampleBriefJson].length = 3 ∧
    ([sampleBriefJson, Json.null, sampleBriefJson].filter parseFails).length = 1 ∧
    ((validateBriefs [sampleBriefJson, Json.null, sampleBriefJson]).validCount = 3 - 1 ∧
     (validateBriefs [sampleBriefJson, Json.null, sampleBriefJson]).errorCount = 1 ∧
     (validateBriefs [sampleBriefJson, Json.null, sampleBriefJson]).errorLogs.length = 1) :=
  ⟨rfl, rfl,
   batch_validation_counts [sampleBriefJson, Json.null, sampleBriefJson] 3 1 rfl rfl⟩

/-- C2 counterexample: a brief whose thirteen schema fields are all
well-formed but which carries one extra key still passes safeParse, yet the
returned value is not the input object: zod's default strip mode drops the
unknown key. -/
theorem brief_unchanged_counterexample :
    briefIssues (sampleBriefFields ++ [("notes", Json.str "internal reviewer note")]) = [] ∧
    briefSafeParse extraFieldBriefJson = Except.ok (Json.obj sampleBriefFields) ∧
    Json.obj sampleBriefFields ≠ extraFieldBriefJson := by
  refine ⟨rfl, rfl, ?_⟩
  intro h
  have hlen :
      sampleBriefFields.length =
        (sampleBriefFields ++ [("notes", Json.str "internal reviewer note")]).length :=
    congrArg (fun j => match j with
      | Json.obj fs => fs.length
      | _ => 0) h
  simp [sampleBriefFields] at hlen

/-- C2 (amended): an object whose fields are exactly the thirteen schema
fields in declaration order, all well-formed, passes safeParse and the
returned value is the input object unchanged (an object with extra unknown
keys still passes, but the value is the input with those keys stripped). -/
theorem brief_wellformed_roundtrip (lv dm tf st du br bp tu gl dl ac cs cx : Json)
    (h : briefIssues [("level", lv), ("domain", dm), ("tech_focus", tf),
      ("stack", st), ("duration", du), ("brief", br), ("business_problem", bp),
      ("target_users", tu), ("goals", gl), ("deliverables", dl),
      ("assessment_criteria", ac), ("company_size", cs), ("complexity", cx)] = []) :
    briefSafeParse (Json.obj [("level", lv), ("domain", dm), ("tech_focus", tf),
      ("stack", st), ("duration", du), ("brief", br), ("business_problem", bp),
      ("target_users", tu), ("goals", gl), ("deliverables", dl),
      ("assessment_criteria", ac), ("company_size", cs), ("complexity", cx)]) =
    Except.ok (Json.obj [("level", lv), ("domain", dm), ("tech_focus", tf),
      ("stack", st), ("duration", du), ("brief", br), ("business_problem", bp),
      ("target_users", tu), ("goals", gl), ("deliverables", dl),
      ("assessment_criteria", ac), ("company_size", cs), ("complexity", cx)]) := by
  have hred : briefSafeParse (Json.obj [("level", lv), ("domain", dm),
      ("tech_focus", tf), ("stack", st), ("duration", du), ("brief", br),
      ("business_problem", bp), ("target_users", tu), ("goals", gl),
      ("deliverables", dl), ("assessment_criteria", ac), ("company_size", cs),
      ("complexity", cx)]) =
      match briefIssues [("level", lv), ("domain", dm), ("tech_focus", tf),
        ("stack", st), ("duration", du), ("brief", br), ("business_problem", bp),
        ("target_users", tu), ("goals", gl), ("deliverables", dl),
        ("assessment_criteria", ac), ("company_size", cs), ("complexity", cx)] with
      | [] => Except.ok (Json.obj (stripToSchema [("level", lv), ("domain", dm),
          ("tech_focus", tf), ("stack", st), ("duration", du), ("brief", br),
          ("business_problem", bp), ("target_users", tu), ("goals", gl),
          ("deliverables", dl), ("assessment_criteria", ac), ("company_size", cs),
          ("complexity", cx)]))
      | issues => Except.error issues := rfl
  rw [hred, h]
  rfl

theorem brief_wellformed_roundtrip_witness :
    briefIssues sampleBriefFields = [] ∧
    briefSafeParse sampleBriefJson = Except.ok sampleBriefJson :=
  ⟨rfl,
   brief_wellformed_roundtrip (Json.str "junior") (Json.str "FinTech")
     (Json.str "frontend")
     (Json.arr [Json.str "React", Json.str "TypeScript", Json.str "TailwindCSS"])
     (Json.str "2 weeks")
     (Json.str "Build a responsive dashboard to visualize user transactions and spending patterns.")
     (Json.str "FinTech companies need intuitive dashboards to help users understand their finances and make informed decisions.")
     (Json.str "End users of a personal finance mobile app")
     (Json.arr [Json.str "Implement a transaction list with category filters"])
     (Json.arr [Json.str "Fully functional responsive web app"])
     (Json.str "Code clarity, UX design quality, and data visualization performance")
     (Json.str "Startup") (Json.str "medium") rfl⟩

theorem briefSafeParse_error_of_mem (fields : List (String × Json)) (i : ZodIssue)
    (hi : i ∈ briefIssues fields) :
    ∃ issues, briefSafeParse (Json.obj fields) = Except.error issues ∧ i ∈ issues := by
  have hred : briefSafeParse (Json.obj fields) =
      match briefIssues fields with
      | [] => Except.ok (Json.obj (stripToSchema fields))
      | issues => Except.error issues := rfl
  cases h : briefIssues fields with
  | nil => rw [h] at hi; cases hi
  | cons a l =>
      refine ⟨a :: l, ?_, h ▸ hi⟩
      rw [hred, h]

/-- C3: an object missing any required schema field, or with an enum field
holding a value outside its closed set, or with an empty stack, goals or
deliverables array, fails safeParse, and the returned issue list contains an
issue whose path names exactly the offending field. -/
theorem invalid_brief_names_offending_field :
    (∀ fields key, key ∈ briefKeys → lookupField fields key = none →
       ∃ issues, briefSafeParse (Json.obj fields) = Except.error issues ∧
         ∃ i ∈ issues, i.path = [key]) ∧
    (∀ fields key options s, (key, options) ∈ briefEnums →
       lookupField fields key = some (Json.str s) → s ∉ options →
       ∃ issues, briefSafeParse (Json.obj fields) = Except.error issues ∧
         ∃ i ∈ issues, i.path = [key]) ∧
    (∀ fields key, key ∈ briefArrayKeys →
       lookupField fields key = some (Json.arr []) →
       ∃ issues, briefSafeParse (Json.obj fields) = Except.error issues ∧
         ∃ i ∈ issues, i.path = [key]) := by
  refine ⟨?_, ?_, ?_⟩
  · intro fields key hk hl
    have hmem : (⟨[key], "invalid_type"⟩ : ZodIssue) ∈ briefIssues fields := by
      simp only [briefKeys, List.mem_cons, List.not_mem_nil, or_false] at hk
      rcases hk with rfl | rfl | rfl | rfl | rfl | rfl | rfl | rfl | rfl | rfl | rfl | rfl | rfl <;>
        simp [briefIssues, checkEnum, checkString, checkStringArrayMin1, hl]
    obtain ⟨issues, he, hi⟩ := briefSafeParse_error_of_mem fields _ hmem
    exact ⟨issues, he, ⟨_, hi, rfl⟩⟩
  · intro fields key options s hko hl hs
    have hmem : (⟨[key], "invalid_enum_value"⟩ : ZodIssue) ∈ briefIssues fields := by
      simp only [briefEnums, List.mem_cons, List.not_mem_nil, or_false,
        Prod.mk.injEq] at hko
      rcases hko with ⟨rfl, rfl⟩ | ⟨rfl, rfl⟩ | ⟨rfl, rfl⟩ | ⟨rfl, rfl⟩ <;>
        simp [briefIssues, checkEnum, hl, hs]
    obtain ⟨issues, he, hi⟩ := briefSafeParse_error_of_mem fields _ hmem
    exact ⟨issues, he, ⟨_, hi, rfl⟩⟩
  · intro fields key hk hl
    have hmem : (⟨[key], "too_small"⟩ : ZodIssue) ∈ briefIssues fields := by
      simp only [briefArrayKeys, List.mem_cons, List.not_mem_nil, or_false] at hk
      rcases hk with rfl | rfl | rfl <;>
        simp [briefIssues, checkStringArrayMin1, hl]
    obtain ⟨issues, he, hi⟩ := briefSafeParse_error_of_mem fields _ hmem
    exact ⟨issues, he, ⟨_, hi, rfl⟩⟩

theorem invalid_brief_names_offending_field_witness :
    ("domain" ∈ briefKeys ∧ lookupField [("level", Json.str "junior")] "domain" = none ∧
      ∃ issues, briefSafeParse (Json.obj [("level", Json.str "junior")]) =
          Except.error issues ∧ ∃ i ∈ issues, i.path = ["domain"]) ∧
    (("level", levelOptions) ∈ briefEnums ∧
      lookupField [("level", Json.str "expert")] "level" = some (Json.str "expert") ∧
      "expert" ∉ levelOptions ∧
      ∃ issues, briefSafeParse (Json.obj [("level", Json.str "expert")]) =
          Except.error issues ∧ ∃ i ∈ issues, i.path = ["level"]) ∧
    ("stack" ∈ briefArrayKeys ∧
      lookupField [("stack", Json.arr [])] "stack" = some (Json.arr []) ∧
      ∃ issues, briefSafeParse (Json.obj [("stack", Json.arr [])]) =
          Except.error issues ∧ ∃ i ∈ issues, i.path = ["stack"]) :=
  ⟨⟨by decide, rfl,
    invalid_brief_names_offending_field.1 [("level", Json.str "junior")] "domain"
      (by decide) rfl⟩,
   ⟨by decide, rfl, by decide,
    invalid_brief_names_offending_field.2.1 [("level", Json.str "expert")] "level"
      levelOptions "expert" (by decide) rfl (by decide)⟩,
   ⟨by decide, rfl,
    invalid_brief_names_offending_field.2.2 [("stack", Json.arr [])] "stack"
      (by decide) rfl⟩⟩

/-- C4: when the briefs-table insert fails, insertBriefInDB throws and the
datastore is untouched — in particular no user-story row is inserted,
whatever the outcome of a story insert would have been; when the briefs
insert succeeds and the user-story insert fails, it throws with the briefs
row already committed and not rolled back. -/
theorem insert_failure_no_stories_no_rollback :
    (∀ msg storiesOutcome db brief embedding,
       (insertBriefInDB (some msg) storiesOutcome db brief embedding).1 = db ∧
       (insertBriefInDB (some msg) storiesOutcome db brief embedding).2 =
         Except.error ("Error inserting brief into database: " ++ msg)) ∧
    (∀ msg db brief embedding,
       (insertBriefInDB none (some msg) db brief embedding).1.briefs =
         db.briefs ++ [briefRowOf db.nextId brief embedding] ∧
       (insertBriefInDB none (some msg) db brief embedding).1.brief_user_stories =
         db.brief_user_stories ∧
       (insertBriefInDB none (some msg) db brief embedding).2 =
         Except.error ("Error inserting brief user stories into database: " ++ msg)) :=
  ⟨fun _ _ _ _ _ => ⟨rfl, rfl⟩, fun _ _ _ _ => ⟨rfl, rfl, rfl⟩⟩

/-- C10: when both inserts succeed, the summary counts exactly
brief.user_stories.length inserted user stories, the related table grows by
exactly the rows built from brief.user_stories in order, and the row for the
story at 0-based position i has story_order i + 1 and brief_id the
identifier generated for the briefs row. -/
theorem insert_success_story_rows (db : DBState) (brief : ProjectBrief)
    (embedding : List Int) :
    (insertBriefInDB none none db brief embedding).2 =
      Except.ok (⟨briefRowOf db.nextId brief embedding,
                  brief.user_stories.length⟩ : InsertSummary) ∧
    (insertBriefInDB none none db brief embedding).1.brief_user_stories =
      db.brief_user_stories ++ userStoryRowsOf db.nextId brief.user_stories ∧
    (userStoryRowsOf db.nextId brief.user_stories).length =
      brief.user_stories.length ∧
    ∀ (i : Nat) (story : UserStory), brief.user_stories[i]? = some story →
      (userStoryRowsOf db.nextId brief.user_stories)[i]? =
        some (⟨db.nextId, i + 1, story.title, story.description,
               story.acceptance_criteria, story.priority,
               story.complexity⟩ : StoryRow) := by
  refine ⟨?_, rfl, ?_, ?_⟩
  · show Except.ok (⟨briefRowOf db.nextId brief embedding,
      (userStoryRowsOf db.nextId brief.user_stories).length⟩ : InsertSummary) =
      Except.ok (⟨briefRowOf db.nextId brief embedding,
                  brief.user_stories.length⟩ : InsertSummary)
    simp [userStoryRowsOf]
  · simp [userStoryRowsOf]
  · intro i story hi
    simp [userStoryRowsOf, List.getElem?_map, List.getElem?_enum, hi]

theorem insert_success_story_rows_witness :
    ((⟨"Transaction list", "Show the latest transactions with filters.",
        "List renders and filters by category.", "high", "low"⟩ : UserStory) ::
      [(⟨"Charts", "Add charts.", "Charts render.", "medium", "medium"⟩ : UserStory)])[1]? =
      some ⟨"Charts", "Add charts.", "Charts render.", "medium", "medium"⟩ ∧
    (userStoryRowsOf 7
      [⟨"Transaction list", "Show the latest transactions with filters.",
        "List renders and filters by category.", "high", "low"⟩,
       ⟨"Charts", "Add charts.", "Charts render.", "medium", "medium"⟩])[1]? =
      some ⟨7, 2, "Charts", "Add charts.", "Charts render.", "medium", "medium"⟩ :=
  ⟨rfl,
   (insert_success_story_rows ⟨7, [], []⟩
     { level := "junior", domain := "FinTech", tech_focus := "frontend",
       stack := ["React"], duration := "2 weeks", brief := "b",
       business_problem := "p", target_users := "u", goals := ["g"],
       deliverables := ["d"], assessment_criteria := "a",
       company_size := "Startup", complexity := "medium",
       user_stories :=
         [⟨"Transaction list", "Show the latest transactions with filters.",
           "List renders and filters by category.", "high", "low"⟩,
          ⟨"Charts", "Add charts.", "Charts render.", "medium", "medium"⟩] }
     []).2.2.2 1
     ⟨"Charts", "Add charts.", "Charts render.", "medium", "medium"⟩ rfl⟩

theorem validateAux_errorLogs (briefs : List Json) (index : Nat)
    (rep : ValidationReport) :
    (validateAux index briefs rep).errorLogs =
      rep.errorLogs ++ (briefs.enumFrom index).filterMap batchErrorLog := by
  induction briefs generalizing index rep with
  | nil => simp [validateAux, List.enumFrom]
  | cons b rest ih =>
      cases hb : briefSafeParse b with
      | ok v =>
          simp [validateAux, hb, List.enumFrom, List.filterMap_cons,
            batchErrorLog, ih]
      | error e =>
          simp [validateAux, hb, List.enumFrom, List.filterMap_cons,
            batchErrorLog, ih]

theorem mapParseSingle_first_error (pre : List Json) (bad : Json)
    (rest : List Json) (e : String)
    (hpre : ∀ b ∈ pre, ∃ v, parseSingleBrief b = Except.ok v)
    (hbad : parseSingleBrief bad = Except.error e) :
    mapParseSingle (pre ++ bad :: rest) = Except.error e := by
  induction pre with
  | nil => simp [mapParseSingle, hbad]
  | cons p pre ih =>
      obtain ⟨v, hv⟩ := hpre p (List.mem_cons_self p pre)
      have h2 := ih (fun b hb => hpre b (List.mem_cons_of_mem p hb))
      simp [mapParseSingle, hv, h2]

/-- C5: the batch validator keeps scanning after a failure — its error log
is the filterMap of the per-brief reports over the whole enumerated array
and every element is counted — while parseBriefs of the generation pipeline
throws the first invalid element's error, whatever comes after it. -/
theorem batch_continues_pipeline_aborts :
    (∀ briefs : List Json,
       (validateBriefs briefs).errorLogs = briefs.enum.filterMap batchErrorLog ∧
       (validateBriefs briefs).validCount + (validateBriefs briefs).errorCount =
         briefs.length) ∧
    (∀ (pre : List Json) (bad : Json) (rest : List Json) (e : String),
       (∀ b ∈ pre, ∃ v, parseSingleBrief b = Except.ok v) →
       parseSingleBrief bad = Except.error e →
       parseBriefs (Json.arr (pre ++ bad :: rest)) = Except.error e) := by
  constructor
  · intro briefs
    constructor
    · have h := validateAux_errorLogs briefs 0 ⟨0, 0, []⟩
      simpa [validateBriefs, List.enum] using h
    · obtain ⟨h1, h2, h3⟩ := validateAux_counts briefs 0 ⟨0, 0, []⟩
      have h4 := length_filter_parseFails briefs
      unfold validateBriefs
      simp only [h1, h2]
      simp
      omega
  · intro pre bad rest e hpre hbad
    show mapParseSingle (pre ++ bad :: rest) = Except.error e
    exact mapParseSingle_first_error pre bad rest e hpre hbad

theorem batch_continues_pipeline_aborts_witness :
    (∀ b ∈ [sampleChatBriefJson], ∃ v, parseSingleBrief b = Except.ok v) ∧
    parseSingleBrief Json.null = Except.error "Invalid JSON format" ∧
    parseBriefs (Json.arr ([sampleChatBriefJson] ++ Json.null :: [sampleChatBriefJson])) =
      Except.error "Invalid JSON format" :=
  have hpre : ∀ b ∈ [sampleChatBriefJson], ∃ v, parseSingleBrief b = Except.ok v := by
    intro b hb
    rw [List.mem_singleton] at hb
    exact hb ▸ ⟨decodeBrief (sampleBriefFields ++
      [("user_stories", Json.arr [Json.obj sampleStoryFields])]), rfl⟩
  ⟨hpre, rfl,
   batch_continues_pipeline_aborts.2 [sampleChatBriefJson] Json.null
     [sampleChatBriefJson] "Invalid JSON format" hpre rfl⟩

/-- C6: every JSON value the chat schema accepts is an object whose
user_stories field is an array, and the returned ProjectBrief carries one
UserStory per element of that array — which is what lets insertBriefInDB
map over brief.user_stories for every validated brief. -/
theorem accepted_brief_carries_user_stories (j : Json) (b : ProjectBrief)
    (h : parseSingleBrief j = Except.ok b) :
    ∃ fields stories, j = Json.obj fields ∧
      lookupField fields "user_stories" = some (Json.arr stories) ∧
      b.user_stories = stories.map decodeUserStory ∧
      b.user_stories.length = stories.length := by
  cases j with
  | null => simp [parseSingleBrief] at h
  | bool v => simp [parseSingleBrief] at h
  | num v => simp [parseSingleBrief] at h
  | str v => simp [parseSingleBrief] at h
  | arr v => simp [parseSingleBrief] at h
  | obj fields =>
      have hred : parseSingleBrief (Json.obj fields) =
          match chatBriefIssues fields with
          | [] => Except.ok (decodeBrief fields)
          | _ => Except.error "Invalid JSON format" := rfl
      cases hc : chatBriefIssues fields with
      | cons a l => rw [hred, hc] at h; simp at h
      | nil =>
          rw [hred, hc] at h
          have hb : b = decodeBrief fields := by
            injection h with h'
            exact h'.symm
          have hc' : briefIssues fields ++ checkUserStories fields = [] := hc
          have hus : checkUserStories fields = [] :=
            (List.append_eq_nil.mp hc').2
          cases hl : lookupField fields "user_stories" with
          | none => simp [checkUserStories, hl] at hus
          | some v =>
              cases v with
              | arr stories =>
                  refine ⟨fields, stories, rfl, hl, ?_, ?_⟩
                  · simp [hb, decodeBrief, hl]
                  · simp [hb, decodeBrief, hl]
              | null => simp [checkUserStories, hl] at hus
              | bool w => simp [checkUserStories, hl] at hus
              | num w => simp [checkUserStories, hl] at hus
              | str w => simp [checkUserStories, hl] at hus
              | obj w => simp [checkUserStories, hl] at hus

theorem accepted_brief_carries_user_stories_witness :
    parseSingleBrief sampleChatBriefJson =
      Except.ok (decodeBrief (sampleBriefFields ++
        [("user_stories", Json.arr [Json.obj sampleStoryFields])])) ∧
    ∃ fields stories, sampleChatBriefJson = Json.obj fields ∧
      lookupField fields "user_stories" = some (Json.arr stories) ∧
      (decodeBrief (sampleBriefFields ++
        [("user_stories", Json.arr [Json.obj sampleStoryFields])])).user_stories =
        stories.map decodeUserStory ∧
      (decodeBrief (sampleBriefFields ++
        [("user_stories", Json.arr [Json.obj sampleStoryFields])])).user_stories.length =
        stories.length :=
  ⟨rfl,
   accepted_brief_carries_user_stories sampleChatBriefJson
     (decodeBrief (sampleBriefFields ++
       [("user_stories", Json.arr [Json.obj sampleStoryFields])])) rfl⟩

/-- C7: the client wrapper throws when the API key environment variable is
absent; the response wrapper throws when output_text is missing or empty;
when content is present it hands the raw text to JSON.parse and returns that
result. -/
theorem openai_wrapper_error_handling (parseJson : String → Except String Json)
    (s : String) (hs : s ≠ "") :
    getOpenAIClient none =
      Except.error "Missing OPENAI_API_KEY. Set it in your environment or .env file." ∧
    getResponseFromOpenAI parseJson ⟨none⟩ =
      Except.error "No content received from OpenAI response." ∧
    getResponseFromOpenAI parseJson ⟨some ""⟩ =
      Except.error "No content received from OpenAI response." ∧
    getResponseFromOpenAI parseJson ⟨some s⟩ = parseJson s := by
  refine ⟨rfl, rfl, rfl, ?_⟩
  simp [getResponseFromOpenAI, hs]

theorem openai_wrapper_error_handling_witness :
    ("null" : String) ≠ "" ∧
    getResponseFromOpenAI (fun t => Except.ok (Json.str t)) ⟨some "null"⟩ =
      (fun t => Except.ok (Json.str t)) "null" :=
  ⟨by decide,
   (openai_wrapper_error_handling (fun t => Except.ok (Json.str t)) "null"
     (by decide)).2.2.2⟩

/-- C9: parseBriefs wraps any non-array value as a single-brief parse of
that value (succeeding with a one-element array exactly when the single
parse succeeds, throwing its error otherwise), while the batch dataset
validator rejects every non-array top-level value outright. -/
theorem non_array_parse_vs_validate (j : Json) (h : ∀ xs, j ≠ Json.arr xs) :
    parseBriefs j = (parseSingleBrief j).map (fun b => [b]) ∧
    validateDataset j = Except.error "Dataset must be an array of briefs" ∧
    (∀ b, parseSingleBrief j = Except.ok b → parseBriefs j = Except.ok [b]) ∧
    (∀ e, parseSingleBrief j = Except.error e → parseBriefs j = Except.error e) := by
  cases j with
  | arr xs => exact absurd rfl (h xs)
  | null =>
      exact ⟨rfl, rfl, fun b hb => by simp [parseBriefs, hb, Except.map],
             fun e he => by simp [parseBriefs, he, Except.map]⟩
  | bool v =>
      exact ⟨rfl, rfl, fun b hb => by simp [parseBriefs, hb, Except.map],
             fun e he => by simp [parseBriefs, he, Except.map]⟩
  | num v =>
      exact ⟨rfl, rfl, fun b hb => by simp [parseBriefs, hb, Except.map],
             fun e he => by simp [parseBriefs, he, Except.map]⟩
  | str v =>
      exact ⟨rfl, rfl, fun b hb => by simp [parseBriefs, hb, Except.map],
             fun e he => by simp [parseBriefs, he, Except.map]⟩
  | obj fields =>
      exact ⟨rfl, rfl, fun b hb => by simp [parseBriefs, hb, Except.map],
             fun e he => by simp [parseBriefs, he, Except.map]⟩

theorem non_array_parse_vs_validate_witness :
    (∀ xs, sampleChatBriefJson ≠ Json.arr xs) ∧
    parseBriefs sampleChatBriefJson =
      (parseSingleBrief sampleChatBriefJson).map (fun b => [b]) ∧
    validateDataset sampleChatBriefJson =
      Except.error "Dataset must be an array of briefs" :=
  have hne : ∀ xs, sampleChatBriefJson ≠ Json.arr xs := fun _ hx =>
    Json.noConfusion hx
  ⟨hne, (non_array_parse_vs_validate sampleChatBriefJson hne).1,
   (non_array_parse_vs_validate sampleChatBriefJson hne).2.1⟩

/-- C8 counterexample: the streaming entry point does not derive its
generation request parameters from CLI arguments. With argv selecting level
senior, the run's effects equal those of an empty argv, and the LLM request
carries the prompt built from the hardcoded parameter object (level junior,
domain FinTech), which differs from the prompt the senior parameters would
produce. -/
theorem streaming_cli_args_counterexample :
    streamingMain ["--level", "senior"] (some "sk-test") [] =
      streamingMain [] (some "sk-test") [] ∧
    streamingMain ["--level", "senior"] (some "sk-test") [] =
      [Effect.llmStreamRequest "gpt-4o-mini" buildSystemPromptStream
         (buildUserPromptStream streamingCallParams),
       Effect.consoleLog "--- streaming start ---\n",
       Effect.consoleError "\n(No streamed content received)",
       Effect.consoleLog "\n\n--- streaming end ---"] ∧
    streamingCallParams.level = "junior" ∧
    buildUserPromptStream streamingCallParams ≠
      buildUserPromptStream { streamingCallParams with level := "senior" } := by
  refine ⟨rfl, rfl, rfl, ?_⟩
  decide

/-- C8 (amended): the second (streaming) entry point builds its prompt from
the hardcoded parameter object (junior, FinTech, frontend,
React/TypeScript/TailwindCSS, 2 weeks, count 3) independently of CLI
arguments, makes one streamed LLM call, writes the streamed fragments to the
console in order, and performs no validation and no storage: every effect of
a run is the request or console output, never a datastore insert or a file
write. -/
theorem streaming_entry_point_behavior (argv : List String) (key : String)
    (hkey : key ≠ "") (stream : List StreamChunk) :
    streamingMain argv (some key) stream =
      Effect.llmStreamRequest "gpt-4o-mini" buildSystemPromptStream
        (buildUserPromptStream streamingCallParams) ::
      Effect.consoleLog "--- streaming start ---\n" ::
      ((truthyContents stream).map Effect.stdoutWrite ++
       (if (truthyContents stream).isEmpty then
          [Effect.consoleError "\n(No streamed content received)"]
        else []) ++
       [Effect.consoleLog "\n\n--- streaming end ---"]) ∧
    streamingMain argv (some key) stream = streamingMain [] (some key) stream ∧
    ∀ e ∈ streamingMain argv (some key) stream, e.isStorage = false := by
  have h1 : streamingMain argv (some key) stream =
      Effect.llmStreamRequest "gpt-4o-mini" buildSystemPromptStream
        (buildUserPromptStream streamingCallParams) ::
      Effect.consoleLog "--- streaming start ---\n" ::
      ((truthyContents stream).map Effect.stdoutWrite ++
       (if (truthyContents stream).isEmpty then
          [Effect.consoleError "\n(No streamed content received)"]
        else []) ++
       [Effect.consoleLog "\n\n--- streaming end ---"]) := by
    simp [streamingMain, hkey]
  refine ⟨h1, ?_, ?_⟩
  · rw [h1]
    simp [streamingMain, hkey]
  · intro e he
    rw [h1] at he
    rcases List.mem_cons.mp he with rfl | he
    · rfl
    rcases List.mem_cons.mp he with rfl | he
    · rfl
    rcases List.mem_append.mp he with he | he
    · rcases List.mem_append.mp he with he | he
      · obtain ⟨s, _, rfl⟩ := List.mem_map.mp he
        rfl
      · split at he
        · obtain rfl := List.mem_singleton.mp he
          rfl
        · cases he
    · obtain rfl := List.mem_singleton.mp he
      rfl

theorem streaming_entry_point_behavior_witness :
    ("sk-test" : String) ≠ "" ∧
    streamingMain ["--level", "senior"] (some "sk-test") [⟨[⟨⟨some "chunk"⟩⟩]⟩] =
      streamingMain [] (some "sk-test") [⟨[⟨⟨some "chunk"⟩⟩]⟩] :=
  ⟨by decide,
   (streaming_entry_point_behavior ["--level", "senior"] "sk-test" (by decide)
     [⟨[⟨⟨some "chunk"⟩⟩]⟩]).2.1⟩
